import Mathlib

/-!
Verification of the RFP Ignite review console: override reconciliation,
pricing recalculation and the draft/approval workflow.

The data model and the override-resolution logic are embedded from the
frontend sources (frontend/src/types/rfp.ts, frontend/src/types/review.ts,
frontend/src/review/ReviewPage.tsx and the pipeline hook). JavaScript
numbers are modelled as rationals, nullable fields as Option, and the
JavaScript truthiness coercions that the code relies on (empty string and
zero are falsy) are made explicit. The backend services (the pricing
recalculation endpoint and the draft/approval workflow) are not part of
the frontend sources; they are modelled from the spec where a claim needs
them, and each such definition says so in its doc comment.
-/

namespace RfpIgnite

/-- Embeds TopMatch from frontend/src/types/rfp.ts. -/
structure TopMatch where
  sku : String
  oem : String
  score : ℚ
deriving Repr, DecidableEq

/-- Embeds TechnicalRecommendation from frontend/src/types/rfp.ts. -/
structure TechnicalRecommendation where
  line_id : String
  description : String
  category : String
  top_matches : List TopMatch
  best_sku : String
deriving Repr, DecidableEq

/-- Embeds TechnicalRecommendations from frontend/src/types/rfp.ts. -/
structure TechnicalRecommendations where
  rfp_id : String
  recommendations : List TechnicalRecommendation
deriving Repr, DecidableEq

/-- Embeds TestDetail from frontend/src/types/rfp.ts. -/
structure TestDetail where
  code : String
  description : String
  cost : ℚ
deriving Repr, DecidableEq

/-- Embeds PricingLineItem from frontend/src/types/rfp.ts. -/
structure PricingLineItem where
  line_id : String
  description : String
  category : String
  best_sku : String
  quantity : ℚ
  unit : String
  unit_price : ℚ
  material_total : ℚ
  tests : List TestDetail
  tests_total : ℚ
  grand_total : ℚ
deriving Repr, DecidableEq

/-- Embeds PricingTotals from frontend/src/types/rfp.ts. -/
structure PricingTotals where
  material_total : ℚ
  tests_total : ℚ
  overall_total : ℚ
deriving Repr, DecidableEq

/-- Embeds PricingOutput from frontend/src/types/rfp.ts. -/
structure PricingOutput where
  rfp_id : String
  line_items : List PricingLineItem
  totals : PricingTotals
deriving Repr, DecidableEq

/-- Embeds RfpPipelineResult from frontend/src/types/rfp.ts; the optional
message field is an Option. -/
structure RfpPipelineResult where
  success : Bool
  rfp_id : String
  buyer : String
  title : String
  submission_due_date : String
  currency : String
  technical_recommendations : TechnicalRecommendations
  pricing : PricingOutput
  message : Option String
deriving Repr, DecidableEq

/-- Embeds LineOverride from frontend/src/types/review.ts. A missing or
null field is none; the empty string sentinel of approved_sku is kept as
some of the empty string, matching the wire value. -/
structure LineOverride where
  line_id : String
  approved_sku : Option String
  manual_unit_price : Option ℚ
  override_reason : Option String
deriving Repr, DecidableEq

/-- Embeds GlobalOverrides from frontend/src/types/review.ts. -/
structure GlobalOverrides where
  margin_fraction : Option ℚ
  tax_fraction : Option ℚ
  test_exclusions : Option (List String)
deriving Repr, DecidableEq

/-- Embeds ReviewSaveRequest from frontend/src/types/review.ts. -/
structure ReviewSaveRequest where
  rfp_id : String
  overrides : List LineOverride
  global_overrides : GlobalOverrides
  reviewer : String
  notes : Option String
deriving Repr, DecidableEq

/-! ### Override resolution in ReviewLineItemRow (ReviewPage.tsx) -/

/-- JavaScript truthiness of a nullable string: undefined, null and the
empty string are falsy. -/
def strTruthy : Option String → Bool
  | none => false
  | some s => s ≠ ""

/-- JavaScript `x || null` on a nullable string: a falsy value (null or
empty) collapses to null. -/
def strOrNull : Option String → Option String
  | none => none
  | some s => if s = "" then none else some s

/-- JavaScript `x || null` on a nullable number: a falsy value (null or
zero) collapses to null. -/
def numOrNull : Option ℚ → Option ℚ
  | none => none
  | some v => if v = 0 then none else some v

/-- Embeds `currentSku = override?.approved_sku || recommendation.best_sku`
(ReviewLineItemRow, ReviewPage.tsx line 305): a falsy approved_sku
(missing override, null, or the empty-string sentinel) falls back to the
recommended best_sku. -/
def currentSku (rec : TechnicalRecommendation) (ov : Option LineOverride) : String :=
  match ov with
  | none => rec.best_sku
  | some o =>
    match o.approved_sku with
    | none => rec.best_sku
    | some s => if s = "" then rec.best_sku else s

/-- Embeds the truthiness of
`isManualSku = override?.approved_sku && !recommendation.top_matches.some(m => m.sku === override.approved_sku)`
(ReviewLineItemRow, ReviewPage.tsx line 306). The line is flagged manual
exactly when approved_sku is truthy and does not occur among the
top_matches SKUs; note the code never compares against best_sku. -/
def isManualSku (rec : TechnicalRecommendation) (ov : Option LineOverride) : Bool :=
  match ov with
  | none => false
  | some o =>
    match o.approved_sku with
    | none => false
    | some s => s ≠ "" && !(rec.top_matches.any (fun m => m.sku == s))

/-- Embeds ReviewLineItemRow.handleSkuChange (ReviewPage.tsx lines
309 to 325): selecting the manual sentinel stores the empty-string
approved_sku, any other selection stores that SKU; in both branches the
carried-over fields go through JavaScript `|| null`, so a zero price or an
empty reason collapses to null. -/
def handleSkuChange (rec : TechnicalRecommendation) (ov : Option LineOverride)
    (sku : String) : LineOverride :=
  if sku = "--manual--" then
    { line_id := rec.line_id
      approved_sku := some ""
      manual_unit_price := numOrNull (ov.bind (fun o => o.manual_unit_price))
      override_reason := strOrNull (ov.bind (fun o => o.override_reason)) }
  else
    { line_id := rec.line_id
      approved_sku := some sku
      manual_unit_price := numOrNull (ov.bind (fun o => o.manual_unit_price))
      override_reason := strOrNull (ov.bind (fun o => o.override_reason)) }

/-- Embeds ReviewLineItemRow.handleManualSkuChange (ReviewPage.tsx lines
327 to 334). -/
def handleManualSkuChange (rec : TechnicalRecommendation) (ov : Option LineOverride)
    (sku : String) : LineOverride :=
  { line_id := rec.line_id
    approved_sku := some sku
    manual_unit_price := numOrNull (ov.bind (fun o => o.manual_unit_price))
    override_reason := strOrNull (ov.bind (fun o => o.override_reason)) }

/-- Embeds ReviewLineItemRow.handleManualPriceChange (ReviewPage.tsx lines
336 to 343): the new price is stored verbatim, and the approved_sku is
re-derived through `override?.approved_sku || recommendation.best_sku`. -/
def handleManualPriceChange (rec : TechnicalRecommendation) (ov : Option LineOverride)
    (price : Option ℚ) : LineOverride :=
  { line_id := rec.line_id
    approved_sku := some (currentSku rec ov)
    manual_unit_price := price
    override_reason := strOrNull (ov.bind (fun o => o.override_reason)) }

/-! ### The overrides collection of ReviewPage

ReviewPage keeps the per-line overrides in a JavaScript
`Map<string, LineOverride>` (ReviewPage.tsx line 32). A JavaScript Map is
an insertion-ordered key-value collection whose `set` replaces the value
of an existing key in place and appends a fresh key at the end; it is
embedded here as an association list with exactly that update rule. -/

/-- One entry of the overrides Map: key and stored override. -/
abbrev OverrideMap := List (String × LineOverride)

/-- JavaScript `Map.prototype.set`: replace the entry of the key in place
when it exists (a JavaScript Map holds each key at most once), append a
fresh key at the end otherwise. -/
def mapSet : OverrideMap → String → LineOverride → OverrideMap
  | [], k, v => [(k, v)]
  | p :: rest, k, v =>
    if p.1 = k then (k, v) :: rest else p :: mapSet rest k v

/-- JavaScript `Map.prototype.get`: the value stored at the entry with the
given key. -/
def mapGet : OverrideMap → String → Option LineOverride
  | [], _ => none
  | p :: rest, k => if p.1 = k then some p.2 else mapGet rest k

/-- The insertion-ordered key list of the Map. -/
def mapKeys (m : OverrideMap) : List String :=
  m.map (fun p => p.1)

/-- Embeds ReviewPage.handleOverrideChange (ReviewPage.tsx lines 77 to
81): copy the Map and set the edited line id. -/
def handleOverrideChange (m : OverrideMap) (lineId : String)
    (override : LineOverride) : OverrideMap :=
  mapSet m lineId override

/-- A sequence of reviewer edits applied in order through
handleOverrideChange. -/
def applyEdits (m : OverrideMap) (edits : List (String × LineOverride)) : OverrideMap :=
  edits.foldl (fun acc e => handleOverrideChange acc e.1 e.2) m

/-- The payload sent to save, approve and recalculate:
`Array.from(overrides.values())` (ReviewPage.tsx lines 89, 115, 141). -/
def overrideValues (m : OverrideMap) : List LineOverride :=
  m.map (fun p => p.2)

/-- The most recent edit for a given key in an edit sequence, if any. -/
def lastEdit (edits : List (String × LineOverride)) (k : String) : Option LineOverride :=
  match edits with
  | [] => none
  | e :: rest =>
    match lastEdit rest k with
    | some v => some v
    | none => if e.1 = k then some e.2 else none

/-! ### The pipeline hook (useRfpPipeline) -/

/-- The state triple held by useRfpPipeline: data, loading, error. -/
structure PipelineHookState where
  data : Option RfpPipelineResult
  loading : Bool
  error : Option String
deriving Repr, DecidableEq

/-- The initial hook state: useState(null), useState(false), useState(null). -/
def initialPipelineHookState : PipelineHookState :=
  { data := none, loading := false, error := none }

/-- The observable outcome of the fetch inside runPipeline: either the
response was not ok (with the detail message the code would extract), or a
parsed RfpPipelineResult. -/
inductive FetchOutcome where
  | httpError (detail : String)
  | ok (result : RfpPipelineResult)
deriving Repr, DecidableEq

/-- The message of the error thrown when the parsed result has
success = false: `result.message || 'Pipeline execution failed'`. -/
def pipelineFailureMessage (r : RfpPipelineResult) : String :=
  match r.message with
  | none => "Pipeline execution failed"
  | some m => if m = "" then "Pipeline execution failed" else m

/-- Embeds useRfpPipeline.runPipeline (pipeline hook source, lines 18 to
49) as the state transformation from call start to settled promise: the
try branch stores the successful result, every thrown error lands in the
catch branch which records the message and clears data, and the finally
branch clears loading. -/
def runPipeline (_s : PipelineHookState) (outcome : FetchOutcome) : PipelineHookState :=
  match outcome with
  | .httpError detail =>
    { data := none, loading := false, error := some detail }
  | .ok r =>
    if r.success then
      { data := some r, loading := false, error := none }
    else
      { data := none, loading := false, error := some (pipelineFailureMessage r) }

/-! ### Spec-modelled backend

The pricing recalculation endpoint and the draft/approval workflow live in
the backend, which is not among the frontend sources; the definitions in
this section are modelled from the spec (sections 4.1 to 4.3) and say so
in their doc comments. -/

/-- Modelled from the spec: section 4.1 Override Reconciler, whose backend
implementation is missing from the sources. Resolves the effective SKU and
the manual flag for one line: a null or empty approved_sku defers to
best_sku and is not manual; a non-empty approved_sku equal to best_sku or
to some top_matches entry is that value and not manual; any other
non-empty approved_sku is that value flagged manual. Total on every
input. -/
def specResolve (rec : TechnicalRecommendation) (ov : Option LineOverride) :
    String × Bool :=
  match ov with
  | none => (rec.best_sku, false)
  | some o =>
    match o.approved_sku with
    | none => (rec.best_sku, false)
    | some s =>
      if s = "" then (rec.best_sku, false)
      else if s = rec.best_sku || rec.top_matches.any (fun m => m.sku == s) then
        (s, false)
      else (s, true)

/-- Modelled from the spec: the external price and test-cost source that
the Recalculation Service consults, keyed by SKU (section 4.2); its
implementation is missing from the sources. -/
structure PriceSource where
  unitPrice : String → Option ℚ
  testsFor : String → List TestDetail

/-- Modelled from the spec: one input line of the Recalculation Service, a
recommendation together with its quantity and unit from the scope of
supply (sections 3 and 4.2). -/
structure RecalcLineInput where
  recommendation : TechnicalRecommendation
  quantity : ℚ
  unit : String

/-- The first override whose line_id matches the given line, if any. -/
def findOverride (ovs : List LineOverride) (lid : String) : Option LineOverride :=
  ovs.find? (fun o => o.line_id == lid)

/-- The margin fraction with null defaulting to zero (spec section 4.2,
margin_fraction_or_0). -/
def marginOr0 (gov : GlobalOverrides) : ℚ :=
  gov.margin_fraction.getD 0

/-- The tax fraction with null defaulting to zero (spec section 4.2,
tax_fraction_or_0). -/
def taxOr0 (gov : GlobalOverrides) : ℚ :=
  gov.tax_fraction.getD 0

/-- Modelled from the spec: the per-line step of the Recalculation Service
(section 4.2, steps 1 to 4), whose backend implementation is missing from
the sources. Reconciles the SKU, takes manual_unit_price as authoritative
when set and otherwise the catalog price (0 when unresolved), multiplies
by quantity, filters excluded tests and sums the rest. -/
def recalcLine (ps : PriceSource) (gov : GlobalOverrides)
    (line : RecalcLineInput) (ov : Option LineOverride) : PricingLineItem :=
  let resolved := specResolve line.recommendation ov
  let sku := resolved.1
  let unit_price :=
    match ov.bind (fun o => o.manual_unit_price) with
    | some p => p
    | none => (ps.unitPrice sku).getD 0
  let material_total := line.quantity * unit_price
  let excl := (gov.test_exclusions).getD []
  let tests := (ps.testsFor sku).filter (fun t => !(excl.contains t.code))
  let tests_total := (tests.map (fun t => t.cost)).sum
  { line_id := line.recommendation.line_id
    description := line.recommendation.description
    category := line.recommendation.category
    best_sku := sku
    quantity := line.quantity
    unit := line.unit
    unit_price := unit_price
    material_total := material_total
    tests := tests
    tests_total := tests_total
    grand_total := material_total + tests_total }

/-- The per-line warnings of spec section 4.2 step 5: an unresolvable
manual SKU with no manual price falls back to 0 with a warning. -/
def lineWarnings (ps : PriceSource) (line : RecalcLineInput)
    (ov : Option LineOverride) : List String :=
  let resolved := specResolve line.recommendation ov
  if resolved.2 && (ps.unitPrice resolved.1).isNone
      && (ov.bind (fun o => o.manual_unit_price)).isNone then
    ["unresolved manual SKU " ++ resolved.1 ++ ", price defaulted to 0"]
  else []

/-- The error taxonomy of spec section 7; messages are abstracted away. -/
inductive ReviewError where
  | ValidationError
  | NotFoundError
  | ConflictError
  | UpstreamUnavailable
deriving Repr, DecidableEq

/-- The result record of the Recalculation Service (spec sections 4.2 and
6): line items in input order, pre-adjustment sums plus the adjusted
overall total, and warnings. -/
structure RecalcResult where
  line_items : List PricingLineItem
  totals : PricingTotals
  warnings : List String
deriving Repr, DecidableEq

/-- Modelled from the spec: the Recalculation Service (section 4.2), whose
backend implementation is missing from the sources. Rejects with
ValidationError any override whose line_id is absent from the
recommendation set; otherwise computes every line in input order,
aggregates the pre-adjustment sums, and applies margin then tax
multiplicatively to the aggregate. -/
def recalculate (ps : PriceSource) (gov : GlobalOverrides)
    (lines : List RecalcLineInput) (ovs : List LineOverride) :
    Except ReviewError RecalcResult :=
  if ovs.any (fun o =>
      !(lines.any (fun l => l.recommendation.line_id == o.line_id))) then
    .error .ValidationError
  else
    let items := lines.map (fun l =>
      recalcLine ps gov l (findOverride ovs l.recommendation.line_id))
    let material_total_sum := (items.map (fun i => i.material_total)).sum
    let tests_total_sum := (items.map (fun i => i.tests_total)).sum
    let overall_total :=
      (material_total_sum + tests_total_sum) * (1 + marginOr0 gov) * (1 + taxOr0 gov)
    .ok
      { line_items := items
        totals :=
          { material_total := material_total_sum
            tests_total := tests_total_sum
            overall_total := overall_total }
        warnings := lines.flatMap (fun l =>
          lineWarnings ps l (findOverride ovs l.recommendation.line_id)) }

/-! ### Spec-modelled review workflow (spec section 4.3) -/

/-- An ASCII whitespace character, covering the whitespace the reviewer
field can realistically contain. -/
def isWsChar (c : Char) : Bool :=
  c == ' ' || c == '\t' || c == '\n' || c == '\r'

/-- Executable model of the JavaScript `String.prototype.trim` used by the
reviewer guards: strip whitespace from both ends. -/
def trimString (s : String) : String :=
  String.mk (((s.data.dropWhile isWsChar).reverse.dropWhile isWsChar).reverse)

/-- The workflow states of spec section 4.3. -/
inductive ReviewState where
  | NEW
  | DRAFTED
  | APPROVED
deriving Repr, DecidableEq

/-- The audit actions of spec sections 3 and 4.4. -/
inductive AuditAction where
  | draft_saved
  | approved
deriving Repr, DecidableEq

/-- One audit-log entry (spec section 3); timestamps are abstracted away,
the actor is the reviewer of the call. -/
structure AuditEntry where
  action : AuditAction
  actor : String
deriving Repr, DecidableEq

/-- Modelled from the spec: the state persisted per RFP by the Review
Workflow (sections 3, 4.3 and 6), whose backend implementation is missing
from the sources. exportCount counts generated export artifacts so that
the at-most-one-export guarantee is observable. -/
structure WorkflowStore where
  state : ReviewState
  currentDraft : Option ReviewSaveRequest
  auditLog : List AuditEntry
  exportRef : Option String
  exportCount : Nat
deriving Repr, DecidableEq

/-- The store of an RFP nobody has acted on yet. -/
def freshStore : WorkflowStore :=
  { state := .NEW, currentDraft := none, auditLog := [], exportRef := none
    exportCount := 0 }

/-- The outcome reported by saveDraft. -/
inductive SaveOutcome where
  | ok
  | err (e : ReviewError)
deriving Repr, DecidableEq

/-- Modelled from the spec: saveDraft of the Review Workflow (section
4.3), whose backend implementation is missing from the sources. Requires
a non-empty reviewer (ValidationError otherwise, before anything else, as
the frontend guards do); allowed from NEW or DRAFTED only; on success
overwrites the current draft and appends exactly one draft_saved entry.
The returned store is the post-call store: on failure it is the input
store unchanged (atomicity, spec section 7). -/
def saveDraft (s : WorkflowStore) (req : ReviewSaveRequest) :
    WorkflowStore × SaveOutcome :=
  if trimString req.reviewer = "" then (s, .err .ValidationError)
  else if s.state = .APPROVED then (s, .err .ConflictError)
  else
    ({ s with
        state := .DRAFTED
        currentDraft := some req
        auditLog := s.auditLog ++ [{ action := .draft_saved, actor := req.reviewer }] },
      .ok)

/-- The outcome reported by approve: success carries the export reference;
the conflict on an already-approved RFP carries the original export
reference so that a retried call observes it (spec section 4.3,
idempotency requirement). -/
inductive ApproveOutcome where
  | ok (exportRef : String)
  | conflict (originalRef : Option String)
  | err (e : ReviewError)
deriving Repr, DecidableEq

/-- Modelled from the spec: the deterministic export reference produced by
the external Export Trigger for an RFP (sections 4.3 and 6); the export
generator itself is out of scope and missing from the sources. -/
def mkExportRef (rfpId : String) : String :=
  "/exports/" ++ rfpId ++ ".zip"

/-- Modelled from the spec: approve of the Review Workflow (section 4.3),
whose backend implementation is missing from the sources. On an RFP that
is already APPROVED every call fails with ConflictError, changes nothing
and hands back the original export reference instead of generating a new
artifact; otherwise, with a non-empty reviewer, it transitions to
APPROVED, appends the terminal audit entry and invokes the export trigger
exactly once. The final recalculation it runs does not affect the stored
workflow fields modelled here. -/
def approve (s : WorkflowStore) (req : ReviewSaveRequest) :
    WorkflowStore × ApproveOutcome :=
  if s.state = .APPROVED then (s, .conflict s.exportRef)
  else if trimString req.reviewer = "" then (s, .err .ValidationError)
  else
    ({ s with
        state := .APPROVED
        exportRef := some (mkExportRef req.rfp_id)
        exportCount := s.exportCount + 1
        auditLog := s.auditLog ++ [{ action := .approved, actor := req.reviewer }] },
      .ok (mkExportRef req.rfp_id))

/-! ### Concrete sample inputs for witnesses and counterexamples -/

/-- A sample recommendation whose best_sku does not occur among its
top_matches, exposing the manual-flag check of ReviewLineItemRow. -/
def sampleRec : TechnicalRecommendation :=
  { line_id := "L1"
    description := "100W induction motor"
    category := "Motors"
    top_matches :=
      [ { sku := "SKU-B", oem := "OEM1", score := 92 }
      , { sku := "SKU-C", oem := "OEM2", score := 85 } ]
    best_sku := "SKU-A" }

/-- Global overrides with a 10 percent margin and an 18 percent tax. -/
def sampleGov : GlobalOverrides :=
  { margin_fraction := some (1 / 10), tax_fraction := some (9 / 50)
    test_exclusions := none }

/-- Global overrides with every field null. -/
def noGov : GlobalOverrides :=
  { margin_fraction := none, tax_fraction := none, test_exclusions := none }

/-- A price source that knows only SKU-A at 1000 and has no tests. -/
def samplePs : PriceSource :=
  { unitPrice := fun s => if s == "SKU-A" then some 1000 else none
    testsFor := fun _ => [] }

/-- One recalculation input line over the sample recommendation. -/
def line1000 : RecalcLineInput :=
  { recommendation := sampleRec, quantity := 1, unit := "pcs" }

/-- An override selecting an off-catalog SKU with a manual price. -/
def c5Override : LineOverride :=
  { line_id := "L1", approved_sku := some "ZZZ", manual_unit_price := some 777
    override_reason := some "manual part" }

/-- A well-formed save or approve request by reviewer alice. -/
def sampleReq : ReviewSaveRequest :=
  { rfp_id := "RFP-1", overrides := [], global_overrides := noGov
    reviewer := "alice", notes := none }

/-- A second save request, by reviewer bob. -/
def sampleReq2 : ReviewSaveRequest :=
  { rfp_id := "RFP-1", overrides := [], global_overrides := noGov
    reviewer := "bob", notes := some "tightened pricing" }

/-- The expected recalculation output over line1000 with sampleGov and no
overrides: catalog price 1000, margin then tax gives 1298. -/
def c3SampleResult : RecalcResult :=
  { line_items :=
      [ { line_id := "L1", description := "100W induction motor", category := "Motors"
          best_sku := "SKU-A", quantity := 1, unit := "pcs", unit_price := 1000
          material_total := 1000, tests := [], tests_total := 0, grand_total := 1000 } ]
    totals := { material_total := 1000, tests_total := 0, overall_total := 1298 }
    warnings := [] }

/-- The line item produced for line1000 under c5Override with no margin or
tax: the manual price 777 is authoritative for the off-catalog SKU. -/
def c5Item : PricingLineItem :=
  { line_id := "L1", description := "100W induction motor", category := "Motors"
    best_sku := "ZZZ", quantity := 1, unit := "pcs", unit_price := 777
    material_total := 777, tests := [], tests_total := 0, grand_total := 777 }

/-- The expected recalculation output over line1000 with c5Override and
noGov. -/
def c5SampleResult : RecalcResult :=
  { line_items := [c5Item]
    totals := { material_total := 777, tests_total := 0, overall_total := 777 }
    warnings := [] }

/-- The store after alice approves a fresh RFP-1. -/
def approvedStore1 : WorkflowStore :=
  { state := .APPROVED, currentDraft := none
    auditLog := [{ action := .approved, actor := "alice" }]
    exportRef := some "/exports/RFP-1.zip", exportCount := 1 }

/-- The store after alice saves a draft on a fresh RFP-1. -/
def draftStore1 : WorkflowStore :=
  { state := .DRAFTED, currentDraft := some sampleReq
    auditLog := [{ action := .draft_saved, actor := "alice" }]
    exportRef := none, exportCount := 0 }

/-- The store after bob saves a second draft on top of draftStore1. -/
def draftStore2 : WorkflowStore :=
  { state := .DRAFTED, currentDraft := some sampleReq2
    auditLog :=
      [ { action := .draft_saved, actor := "alice" }
      , { action := .draft_saved, actor := "bob" } ]
    exportRef := none, exportCount := 0 }

/-- A save request with a whitespace-only reviewer. -/
def badReq : ReviewSaveRequest :=
  { rfp_id := "RFP-1", overrides := [], global_overrides := noGov
    reviewer := "   ", notes := none }

/-- A sample edit sequence touching line L1 twice and line L2 once. -/
def c8Edits : List (String × LineOverride) :=
  [ ("L1", { line_id := "L1", approved_sku := some "SKU-B", manual_unit_price := none
             override_reason := none })
  , ("L2", { line_id := "L2", approved_sku := some "SKU-D", manual_unit_price := none
             override_reason := some "better fit" })
  , ("L1", { line_id := "L1", approved_sku := some "SKU-C", manual_unit_price := none
             override_reason := none }) ]

/-! ### Theorems -/

/-- C10: after every completed runPipeline call, loading is false and
exactly one of two states holds: data holds a successful pipeline result
and error is null, or data is null and error is a non-null message; a
failed run never leaves a stale previous result in data. -/
theorem c10_pipeline_run_settles_cleanly (s : PipelineHookState) (outcome : FetchOutcome) :
    (runPipeline s outcome).loading = false ∧
    ((∃ r, (runPipeline s outcome).data = some r ∧ r.success = true ∧
        (runPipeline s outcome).error = none) ∨
      ((runPipeline s outcome).data = none ∧
        ∃ m, (runPipeline s outcome).error = some m)) := by
  cases outcome with
  | httpError d => exact ⟨rfl, Or.inr ⟨rfl, d, rfl⟩⟩
  | ok r =>
    by_cases h : r.success = true
    · exact ⟨by simp [runPipeline, h], Or.inl ⟨r, by simp [runPipeline, h], h,
        by simp [runPipeline, h]⟩⟩
    · exact ⟨by simp [runPipeline, h], Or.inr ⟨by simp [runPipeline, h],
        pipelineFailureMessage r, by simp [runPipeline, h]⟩⟩

/-- C6: when the override has a null or empty-string approved_sku, the
resolved SKU is the recommended best_sku and the line is not flagged
manual. -/
theorem c6_empty_sku_defers_to_best (rec : TechnicalRecommendation) (o : LineOverride)
    (h : o.approved_sku = none ∨ o.approved_sku = some "") :
    currentSku rec (some o) = rec.best_sku ∧ isManualSku rec (some o) = false := by
  rcases h with h | h <;> simp [currentSku, isManualSku, h]

/-- Witness for C6 at the empty-string sentinel on the sample
recommendation. -/
theorem c6_witness :
    ((⟨"L1", some "", none, none⟩ : LineOverride).approved_sku = none ∨
      (⟨"L1", some "", none, none⟩ : LineOverride).approved_sku = some "") ∧
    currentSku sampleRec (some ⟨"L1", some "", none, none⟩) = sampleRec.best_sku ∧
    isManualSku sampleRec (some ⟨"L1", some "", none, none⟩) = false :=
  ⟨Or.inr rfl, c6_empty_sku_defers_to_best sampleRec ⟨"L1", some "", none, none⟩ (Or.inr rfl)⟩

/-- C1 counterexample: on a recommendation whose best_sku does not occur
among its top_matches, an override approving exactly that best_sku
resolves to it but IS flagged manual, contradicting the claim that a match
with best_sku is never manual. -/
theorem c1_counterexample :
    sampleRec.best_sku = "SKU-A" ∧
    (sampleRec.top_matches.any (fun m => m.sku == "SKU-A")) = false ∧
    currentSku sampleRec (some ⟨"L1", some "SKU-A", none, none⟩) = "SKU-A" ∧
    isManualSku sampleRec (some ⟨"L1", some "SKU-A", none, none⟩) = true := by
  refine ⟨rfl, ?_, ?_, ?_⟩ <;> decide

/-- C1 (amended): a non-empty approved_sku always resolves as the
effective SKU, and when it occurs among the top_matches SKUs the line is
not flagged manual; equality with best_sku alone does not prevent the
manual flag, because the code compares only against top_matches. -/
theorem c1_catalog_match_resolution (rec : TechnicalRecommendation) (o : LineOverride)
    (s : String) (hsku : o.approved_sku = some s) (hne : s ≠ "") :
    currentSku rec (some o) = s ∧
    (rec.top_matches.any (fun m => m.sku == s) = true →
      isManualSku rec (some o) = false) := by
  refine ⟨by simp [currentSku, hsku, hne], fun h => ?_⟩
  simp [isManualSku, hsku, hne, h]

/-- Witness for C1 at a top-matches SKU of the sample recommendation. -/
theorem c1_witness :
    (⟨"L1", some "SKU-B", none, none⟩ : LineOverride).approved_sku = some "SKU-B" ∧
    "SKU-B" ≠ "" ∧
    (sampleRec.top_matches.any (fun m => m.sku == "SKU-B")) = true ∧
    currentSku sampleRec (some ⟨"L1", some "SKU-B", none, none⟩) = "SKU-B" ∧
    isManualSku sampleRec (some ⟨"L1", some "SKU-B", none, none⟩) = false :=
  ⟨rfl, by decide, by decide,
    (c1_catalog_match_resolution sampleRec ⟨"L1", some "SKU-B", none, none⟩ "SKU-B"
      rfl (by decide)).1,
    (c1_catalog_match_resolution sampleRec ⟨"L1", some "SKU-B", none, none⟩ "SKU-B"
      rfl (by decide)).2 (by decide)⟩

/-- C9 counterexample: changing the SKU of a line whose override carries a
manual_unit_price of 0 drops that price to null, because the handlers copy
it through JavaScript `|| null` and 0 is falsy. -/
theorem c9_counterexample :
    (handleSkuChange sampleRec
        (some ⟨"L1", some "SKU-B", some 0, some "why"⟩) "SKU-C").manual_unit_price = none ∧
    (handleManualSkuChange sampleRec
        (some ⟨"L1", some "SKU-B", some 0, some "why"⟩) "XY-9").manual_unit_price = none := by
  constructor <;> simp [handleSkuChange, handleManualSkuChange, numOrNull]

/-- C9 (amended): changing the selected SKU preserves the previously
entered manual_unit_price and override_reason except at the falsy values,
where a manual_unit_price of 0 and an empty override_reason are reset to
null by the `|| null` copies in the handlers. -/
theorem c9_sku_change_preserves_fields (rec : TechnicalRecommendation)
    (o : LineOverride) (sku : String)
    (hp : o.manual_unit_price ≠ some 0) (hr : o.override_reason ≠ some "") :
    (handleSkuChange rec (some o) sku).manual_unit_price = o.manual_unit_price ∧
    (handleSkuChange rec (some o) sku).override_reason = o.override_reason ∧
    (handleManualSkuChange rec (some o) sku).manual_unit_price = o.manual_unit_price ∧
    (handleManualSkuChange rec (some o) sku).override_reason = o.override_reason := by
  have hnum : numOrNull o.manual_unit_price = o.manual_unit_price := by
    cases h : o.manual_unit_price with
    | none => rfl
    | some v =>
      have hv : ¬ v = 0 := by
        intro hv0
        exact hp (by rw [h, hv0])
      simp [numOrNull, hv]
  have hstr : strOrNull o.override_reason = o.override_reason := by
    cases h : o.override_reason with
    | none => rfl
    | some v =>
      have hv : ¬ v = "" := by
        intro hv0
        exact hr (by rw [h, hv0])
      simp [strOrNull, hv]
  by_cases hm : sku = "--manual--" <;>
    simp [handleSkuChange, handleManualSkuChange, hm, hnum, hstr]

/-- Witness for C9 at a nonzero price and a non-empty reason. -/
theorem c9_witness :
    ((⟨"L1", some "SKU-B", some 5, some "why"⟩ : LineOverride).manual_unit_price ≠ some 0) ∧
    ((⟨"L1", some "SKU-B", some 5, some "why"⟩ : LineOverride).override_reason ≠ some "") ∧
    (handleSkuChange sampleRec
        (some ⟨"L1", some "SKU-B", some 5, some "why"⟩) "SKU-C").manual_unit_price = some 5 ∧
    (handleSkuChange sampleRec
        (some ⟨"L1", some "SKU-B", some 5, some "why"⟩) "SKU-C").override_reason = some "why" :=
  ⟨by norm_num [Option.some.injEq], by simp,
    (c9_sku_change_preserves_fields sampleRec ⟨"L1", some "SKU-B", some 5, some "why"⟩
      "SKU-C" (by norm_num [Option.some.injEq]) (by simp)).1,
    (c9_sku_change_preserves_fields sampleRec ⟨"L1", some "SKU-B", some 5, some "why"⟩
      "SKU-C" (by norm_num [Option.some.injEq]) (by simp)).2.1⟩

/-- Setting a key makes it the value mapGet returns for that key. -/
theorem mapGet_mapSet_self (m : OverrideMap) (k : String) (v : LineOverride) :
    mapGet (mapSet m k v) k = some v := by
  induction m with
  | nil => simp [mapSet, mapGet]
  | cons p rest ih =>
    by_cases hp : p.1 = k
    · simp [mapSet, mapGet, hp]
    · simp [mapSet, mapGet, hp, ih]

/-- Setting one key leaves mapGet at every other key unchanged. -/
theorem mapGet_mapSet_ne (m : OverrideMap) (k k' : String) (v : LineOverride)
    (h : ¬ k' = k) :
    mapGet (mapSet m k v) k' = mapGet m k' := by
  have hk : ¬ k = k' := fun hh => h hh.symm
  induction m with
  | nil => simp [mapSet, mapGet, hk]
  | cons p rest ih =>
    by_cases hp : p.1 = k
    · have hp' : ¬ p.1 = k' := by rw [hp]; exact hk
      simp [mapSet, mapGet, hp, hk, hp']
    · by_cases hq : p.1 = k'
      · simp [mapSet, mapGet, hp, hq, h]
      · simp [mapSet, mapGet, hp, hq, ih]

/-- Every key present after a mapSet was already present or is the key
just set. -/
theorem mem_mapKeys_mapSet (m : OverrideMap) (k x : String) (v : LineOverride)
    (hx : x ∈ mapKeys (mapSet m k v)) :
    x ∈ mapKeys m ∨ x = k := by
  induction m with
  | nil =>
    simp [mapSet, mapKeys] at hx
    exact Or.inr hx
  | cons p rest ih =>
    by_cases hp : p.1 = k
    · simp [mapSet, mapKeys, hp] at hx
      rcases hx with hx | hx
      · exact Or.inr hx
      · exact Or.inl (by simp [mapKeys, hx])
    · simp only [mapSet, hp, if_false, mapKeys, List.map_cons, List.mem_cons] at hx
      rcases hx with hx | hx
      · exact Or.inl (by simp [mapKeys, hx])
      · rcases ih hx with h1 | h1
        · exact Or.inl (by simp [mapKeys] at h1 ⊢; exact Or.inr h1)
        · exact Or.inr h1

/-- mapSet preserves distinctness of the keys. -/
theorem nodup_mapKeys_mapSet (m : OverrideMap) (k : String) (v : LineOverride)
    (h : (mapKeys m).Nodup) :
    (mapKeys (mapSet m k v)).Nodup := by
  induction m with
  | nil => simp [mapSet, mapKeys]
  | cons p rest ih =>
    simp only [mapKeys, List.map_cons, List.nodup_cons] at h
    obtain ⟨hnp, hnr⟩ := h
    by_cases hp : p.1 = k
    · simp only [mapSet, hp, if_true, mapKeys, List.map_cons, List.nodup_cons]
      exact ⟨hp ▸ hnp, hnr⟩
    · simp only [mapSet, hp, if_false, mapKeys, List.map_cons, List.nodup_cons]
      refine ⟨?_, ih hnr⟩
      intro hmem
      rcases mem_mapKeys_mapSet rest k p.1 v hmem with h1 | h1
      · exact hnp h1
      · exact hp h1

/-- mapSet preserves the invariant that every stored override carries its
own key as line_id, provided the new value does. -/
theorem keyed_mapSet (m : OverrideMap) (k : String) (v : LineOverride)
    (hm : ∀ p ∈ m, p.2.line_id = p.1) (hv : v.line_id = k) :
    ∀ p ∈ mapSet m k v, p.2.line_id = p.1 := by
  induction m with
  | nil =>
    intro p hp
    simp [mapSet] at hp
    subst hp
    exact hv
  | cons q rest ih =>
    intro p hp
    by_cases hq : q.1 = k
    · simp only [mapSet, hq, if_true, List.mem_cons] at hp
      rcases hp with hp | hp
      · subst hp
        exact hv
      · exact hm p (List.mem_cons_of_mem q hp)
    · simp only [mapSet, hq, if_false, List.mem_cons] at hp
      rcases hp with hp | hp
      · subst hp
        exact hm p (List.mem_cons_self p rest)
      · exact ih (fun x hx => hm x (List.mem_cons_of_mem q hx)) p hp

/-- mapGet after a fold of edits is the most recent edit for the key, or
the original binding when the key was never edited. -/
theorem mapGet_applyEdits (edits : List (String × LineOverride)) :
    ∀ (m : OverrideMap) (k : String),
      mapGet (applyEdits m edits) k =
        match lastEdit edits k with
        | some v => some v
        | none => mapGet m k := by
  induction edits with
  | nil => intro m k; rfl
  | cons e rest ih =>
    intro m k
    have hstep : applyEdits m (e :: rest) = applyEdits (mapSet m e.1 e.2) rest := rfl
    rw [hstep, ih]
    cases hl : lastEdit rest k with
    | some v => simp [lastEdit, hl]
    | none =>
      simp only [lastEdit, hl]
      by_cases hek : e.1 = k
      · subst hek
        simp [mapGet_mapSet_self]
      · have hk : ¬ k = e.1 := fun hh => hek hh.symm
        simp [hek, mapGet_mapSet_ne m e.1 k e.2 hk]

/-- Folding edits preserves distinctness of the keys. -/
theorem nodup_keys_applyEdits (edits : List (String × LineOverride)) :
    ∀ m : OverrideMap, (mapKeys m).Nodup → (mapKeys (applyEdits m edits)).Nodup := by
  induction edits with
  | nil => intro m h; exact h
  | cons e rest ih =>
    intro m h
    exact ih (mapSet m e.1 e.2) (nodup_mapKeys_mapSet m e.1 e.2 h)

/-- Folding edits that carry their key as line_id preserves the keyed
invariant. -/
theorem keyed_applyEdits : ∀ (edits : List (String × LineOverride)) (m : OverrideMap),
    (∀ e ∈ edits, e.2.line_id = e.1) → (∀ p ∈ m, p.2.line_id = p.1) →
    ∀ p ∈ applyEdits m edits, p.2.line_id = p.1 := by
  intro edits
  induction edits with
  | nil => intro m _ hm; exact hm
  | cons e rest ih =>
    intro m he hm
    exact ih (mapSet m e.1 e.2) (fun x hx => he x (List.mem_cons_of_mem e hx))
      (keyed_mapSet m e.1 e.2 hm (he e (List.mem_cons_self e rest)))

/-- Under the keyed invariant the submitted line_id list is exactly the
key list. -/
theorem values_line_ids_eq_keys (m : OverrideMap)
    (hm : ∀ p ∈ m, p.2.line_id = p.1) :
    (overrideValues m).map (fun o => o.line_id) = mapKeys m := by
  unfold overrideValues mapKeys
  rw [List.map_map]
  exact List.map_congr_left hm

/-- C8: after any sequence of override edits the Map holds at most one
override per line_id, each line_id maps to the most recently supplied
override for it, and the override list submitted to save, approve and
recalculate contains no duplicate line_id. -/
theorem c8_overrides_unique_per_line (edits : List (String × LineOverride))
    (he : ∀ e ∈ edits, e.2.line_id = e.1) :
    (mapKeys (applyEdits [] edits)).Nodup ∧
    (∀ k, mapGet (applyEdits [] edits) k = lastEdit edits k) ∧
    ((overrideValues (applyEdits [] edits)).map (fun o => o.line_id)).Nodup := by
  refine ⟨nodup_keys_applyEdits edits [] (by simp [mapKeys]), ?_, ?_⟩
  · intro k
    rw [mapGet_applyEdits edits [] k]
    cases hl : lastEdit edits k <;> simp [mapGet]
  · rw [values_line_ids_eq_keys _ (keyed_applyEdits edits [] he (by simp))]
    exact nodup_keys_applyEdits edits [] (by simp [mapKeys])

/-- Witness for C8 on a three-edit sequence touching L1 twice. -/
theorem c8_witness :
    (∀ e ∈ c8Edits, e.2.line_id = e.1) ∧
    mapGet (applyEdits [] c8Edits) "L1" = lastEdit c8Edits "L1" ∧
    (mapKeys (applyEdits [] c8Edits)).Nodup :=
  ⟨by decide, (c8_overrides_unique_per_line c8Edits (by decide)).2.1 "L1",
    (c8_overrides_unique_per_line c8Edits (by decide)).1⟩

/-- Concrete evaluation: the sample run with margin and tax. -/
theorem recalcSampleEval :
    recalculate samplePs sampleGov [line1000] [] = Except.ok c3SampleResult := by
  simp [recalculate, recalcLine, lineWarnings, specResolve, findOverride, samplePs,
    sampleGov, line1000, sampleRec, marginOr0, taxOr0, c3SampleResult]
  norm_num

/-- Concrete evaluation: the sample run with a manual price override and
no margin or tax. -/
theorem recalcManualEval :
    recalculate samplePs noGov [line1000] [c5Override] = Except.ok c5SampleResult := by
  simp [recalculate, recalcLine, lineWarnings, specResolve, findOverride, samplePs,
    noGov, line1000, sampleRec, c5Override, marginOr0, taxOr0, c5SampleResult, c5Item]

/-- C3: margin and tax are applied multiplicatively, margin first then
tax, to the aggregate sums; the reported material and tests totals remain
the pre-adjustment sums of the line items; and the sample instance 1000
with 10 percent margin and 18 percent tax yields exactly 1298. -/
theorem c3_margin_then_tax_on_aggregate :
    (∀ (ps : PriceSource) (gov : GlobalOverrides) (lines : List RecalcLineInput)
        (ovs : List LineOverride) (res : RecalcResult),
        recalculate ps gov lines ovs = Except.ok res →
        res.totals.overall_total =
          (res.totals.material_total + res.totals.tests_total) *
            (1 + marginOr0 gov) * (1 + taxOr0 gov) ∧
        res.totals.material_total =
          (res.line_items.map (fun i => i.material_total)).sum ∧
        res.totals.tests_total =
          (res.line_items.map (fun i => i.tests_total)).sum) ∧
    recalculate samplePs sampleGov [line1000] [] = Except.ok c3SampleResult ∧
    c3SampleResult.totals.material_total = 1000 ∧
    c3SampleResult.totals.tests_total = 0 ∧
    c3SampleResult.totals.overall_total = 1298 := by
  refine ⟨?_, ?_, rfl, rfl, rfl⟩
  · intro ps gov lines ovs res h
    unfold recalculate at h
    by_cases hv : ovs.any (fun o =>
        !(lines.any (fun l => l.recommendation.line_id == o.line_id))) = true
    · rw [if_pos hv] at h
      cases h
    · rw [if_neg hv] at h
      injection h with h'
      rw [← h']
      exact ⟨rfl, rfl, rfl⟩
  · exact recalcSampleEval

/-- Witness for C3: the sample run satisfies the aggregate composition
formula of the universal part. -/
theorem c3_witness :
    recalculate samplePs sampleGov [line1000] [] = Except.ok c3SampleResult ∧
    c3SampleResult.totals.overall_total =
      (c3SampleResult.totals.material_total + c3SampleResult.totals.tests_total) *
        (1 + marginOr0 sampleGov) * (1 + taxOr0 sampleGov) :=
  ⟨c3_margin_then_tax_on_aggregate.2.1,
    (c3_margin_then_tax_on_aggregate.1 samplePs sampleGov [line1000] [] c3SampleResult
      c3_margin_then_tax_on_aggregate.2.1).1⟩

/-- C5: whenever the override of a line sets manual_unit_price, the line
item recalculate produces for that line reports exactly that unit price,
regardless of the selected SKU and of whether it is a catalog match. -/
theorem c5_manual_price_wins (ps : PriceSource) (gov : GlobalOverrides)
    (lines : List RecalcLineInput) (ovs : List LineOverride) (res : RecalcResult)
    (hok : recalculate ps gov lines ovs = Except.ok res)
    (i : Nat) (l : RecalcLineInput) (item : PricingLineItem) (p : ℚ)
    (hl : lines[i]? = some l) (hi : res.line_items[i]? = some item)
    (hp : (findOverride ovs l.recommendation.line_id).bind
      (fun o => o.manual_unit_price) = some p) :
    item.unit_price = p := by
  have hitems : res.line_items = lines.map
      (fun l => recalcLine ps gov l (findOverride ovs l.recommendation.line_id)) := by
    unfold recalculate at hok
    by_cases hv : ovs.any (fun o =>
        !(lines.any (fun l => l.recommendation.line_id == o.line_id))) = true
    · rw [if_pos hv] at hok
      cases hok
    · rw [if_neg hv] at hok
      injection hok with h'
      rw [← h']
  rw [hitems, List.getElem?_map, hl] at hi
  injection hi with hi'
  rw [← hi']
  simp [recalcLine, hp]

/-- Witness for C5: an off-catalog SKU with manual price 777 produces a
line item priced at 777. -/
theorem c5_witness :
    recalculate samplePs noGov [line1000] [c5Override] = Except.ok c5SampleResult ∧
    ([line1000][0]? = some line1000) ∧
    (c5SampleResult.line_items[0]? = some c5Item) ∧
    ((findOverride [c5Override] line1000.recommendation.line_id).bind
      (fun o => o.manual_unit_price) = some 777) ∧
    c5Item.unit_price = 777 :=
  ⟨recalcManualEval, rfl, rfl, rfl,
    c5_manual_price_wins samplePs noGov [line1000] [c5Override] c5SampleResult
      recalcManualEval 0 line1000 c5Item 777 rfl rfl rfl⟩

/-- C2: approve on an already-approved RFP always fails with
ConflictError, leaves the store untouched (so no second export artifact is
generated), and hands back the original export reference; a successful
approve makes the store approved with exactly one new export artifact, and
retrying the identical call yields the conflict carrying the original
reference. -/
theorem c2_approve_terminal_idempotent :
    (∀ (s : WorkflowStore) (req : ReviewSaveRequest),
      s.state = ReviewState.APPROVED →
      approve s req = (s, ApproveOutcome.conflict s.exportRef)) ∧
    (∀ (s : WorkflowStore) (req : ReviewSaveRequest) (s1 : WorkflowStore) (ref : String),
      approve s req = (s1, ApproveOutcome.ok ref) →
      s1.state = ReviewState.APPROVED ∧ s1.exportRef = some ref ∧
      s1.exportCount = s.exportCount + 1 ∧
      approve s1 req = (s1, ApproveOutcome.conflict (some ref))) := by
  constructor
  · intro s req h
    unfold approve
    rw [if_pos h]
  · intro s req s1 ref h
    unfold approve at h
    by_cases h1 : s.state = ReviewState.APPROVED
    · rw [if_pos h1] at h
      simp at h
    · rw [if_neg h1] at h
      by_cases h2 : trimString req.reviewer = ""
      · rw [if_pos h2] at h
        simp at h
      · rw [if_neg h2] at h
        rw [Prod.mk.injEq] at h
        obtain ⟨hs1, href⟩ := h
        injection href with href
        subst hs1
        subst href
        exact ⟨rfl, rfl, rfl, rfl⟩

/-- Witness for C2: alice approves a fresh RFP-1, then the retried call
conflicts with the original export reference. -/
theorem c2_witness :
    approve freshStore sampleReq = (approvedStore1, ApproveOutcome.ok "/exports/RFP-1.zip") ∧
    approvedStore1.state = ReviewState.APPROVED ∧
    approve approvedStore1 sampleReq =
      (approvedStore1, ApproveOutcome.conflict (some "/exports/RFP-1.zip")) ∧
    approvedStore1.exportCount = freshStore.exportCount + 1 :=
  ⟨by decide,
    (c2_approve_terminal_idempotent.2 freshStore sampleReq approvedStore1
      "/exports/RFP-1.zip" (by decide)).1,
    (c2_approve_terminal_idempotent.2 freshStore sampleReq approvedStore1
      "/exports/RFP-1.zip" (by decide)).2.2.2,
    (c2_approve_terminal_idempotent.2 freshStore sampleReq approvedStore1
      "/exports/RFP-1.zip" (by decide)).2.2.1⟩

/-- C4: a successful saveDraft appends exactly one draft_saved audit entry
and installs the request as the current draft; a failed saveDraft leaves
the store unchanged; and two sequential successful saves grow the audit
log by exactly two entries with the current draft holding only the second
payload. -/
theorem c4_save_draft_atomic :
    (∀ (s : WorkflowStore) (req : ReviewSaveRequest) (s1 : WorkflowStore),
      saveDraft s req = (s1, SaveOutcome.ok) →
      s1.auditLog = s.auditLog ++ [{ action := AuditAction.draft_saved, actor := req.reviewer }] ∧
      s1.currentDraft = some req) ∧
    (∀ (s : WorkflowStore) (req : ReviewSaveRequest) (s1 : WorkflowStore) (e : ReviewError),
      saveDraft s req = (s1, SaveOutcome.err e) → s1 = s) ∧
    (∀ (s : WorkflowStore) (r1 r2 : ReviewSaveRequest) (s1 s2 : WorkflowStore),
      saveDraft s r1 = (s1, SaveOutcome.ok) → saveDraft s1 r2 = (s2, SaveOutcome.ok) →
      s2.auditLog.length = s.auditLog.length + 2 ∧ s2.currentDraft = some r2) := by
  have hok : ∀ (s : WorkflowStore) (req : ReviewSaveRequest) (s1 : WorkflowStore),
      saveDraft s req = (s1, SaveOutcome.ok) →
      s1.auditLog = s.auditLog ++ [{ action := AuditAction.draft_saved, actor := req.reviewer }] ∧
      s1.currentDraft = some req := by
    intro s req s1 h
    unfold saveDraft at h
    by_cases h1 : trimString req.reviewer = ""
    · rw [if_pos h1] at h
      simp at h
    · rw [if_neg h1] at h
      by_cases h2 : s.state = ReviewState.APPROVED
      · rw [if_pos h2] at h
        simp at h
      · rw [if_neg h2] at h
        rw [Prod.mk.injEq] at h
        obtain ⟨hs1, _⟩ := h
        subst hs1
        exact ⟨rfl, rfl⟩
  refine ⟨hok, ?_, ?_⟩
  · intro s req s1 e h
    unfold saveDraft at h
    by_cases h1 : trimString req.reviewer = ""
    · rw [if_pos h1, Prod.mk.injEq] at h
      exact h.1.symm
    · rw [if_neg h1] at h
      by_cases h2 : s.state = ReviewState.APPROVED
      · rw [if_pos h2, Prod.mk.injEq] at h
        exact h.1.symm
      · rw [if_neg h2] at h
        simp at h
  · intro s r1 r2 s1 s2 h1 h2
    obtain ⟨ha1, _⟩ := hok s r1 s1 h1
    obtain ⟨ha2, hd2⟩ := hok s1 r2 s2 h2
    refine ⟨?_, hd2⟩
    rw [ha2, ha1]
    simp

/-- Witness for C4: two sequential saves by alice and bob on a fresh
store, plus a failing save with a whitespace reviewer. -/
theorem c4_witness :
    saveDraft freshStore sampleReq = (draftStore1, SaveOutcome.ok) ∧
    saveDraft draftStore1 sampleReq2 = (draftStore2, SaveOutcome.ok) ∧
    draftStore2.auditLog.length = freshStore.auditLog.length + 2 ∧
    draftStore2.currentDraft = some sampleReq2 ∧
    saveDraft freshStore badReq = (freshStore, SaveOutcome.err ReviewError.ValidationError) ∧
    (saveDraft freshStore badReq).1 = freshStore :=
  ⟨by decide, by decide,
    (c4_save_draft_atomic.2.2 freshStore sampleReq sampleReq2 draftStore1 draftStore2
      (by decide) (by decide)).1,
    (c4_save_draft_atomic.2.2 freshStore sampleReq sampleReq2 draftStore1 draftStore2
      (by decide) (by decide)).2,
    by decide,
    c4_save_draft_atomic.2.1 freshStore badReq (saveDraft freshStore badReq).1
      ReviewError.ValidationError (by decide)⟩

/-- C7: a saveDraft call whose reviewer trims to the empty string (empty
or whitespace-only) fails with ValidationError and records nothing, and a
saveDraft call with a reviewer that is non-empty after trimming succeeds
from NEW or DRAFTED. -/
theorem c7_save_draft_requires_reviewer :
    (∀ (s : WorkflowStore) (req : ReviewSaveRequest),
      trimString req.reviewer = "" →
      saveDraft s req = (s, SaveOutcome.err ReviewError.ValidationError)) ∧
    (∀ (s : WorkflowStore) (req : ReviewSaveRequest),
      trimString req.reviewer ≠ "" →
      (s.state = ReviewState.NEW ∨ s.state = ReviewState.DRAFTED) →
      (saveDraft s req).2 = SaveOutcome.ok) := by
  constructor
  · intro s req h
    unfold saveDraft
    rw [if_pos h]
  · intro s req h hs
    have hns : ¬ s.state = ReviewState.APPROVED := by
      rcases hs with hs | hs <;> rw [hs] <;> intro hh <;> cases hh
    unfold saveDraft
    rw [if_neg h, if_neg hns]

/-- Witness for C7: the whitespace reviewer fails on a fresh store while
alice succeeds. -/
theorem c7_witness :
    trimString badReq.reviewer = "" ∧
    saveDraft freshStore badReq = (freshStore, SaveOutcome.err ReviewError.ValidationError) ∧
    trimString sampleReq.reviewer ≠ "" ∧
    freshStore.state = ReviewState.NEW ∧
    (saveDraft freshStore sampleReq).2 = SaveOutcome.ok :=
  ⟨by decide,
    c7_save_draft_requires_reviewer.1 freshStore badReq (by decide),
    by decide, rfl,
    c7_save_draft_requires_reviewer.2 freshStore sampleReq (by decide) (Or.inl rfl)⟩

end RfpIgnite
